import Mathlib

/-!
Verification of the SunnySips shadow-and-sun ranking engine.

This file gives a shallow embedding, in Lean 4, of the core functions of the
repository (src/shadow_engine.py, src/recommendations.py, src/api.py) and
proves or refutes the frozen specification claims about them.

Modelling conventions:
* Python floats are modelled as exact rationals.  Built-in round(x, n)
  (banker's rounding, round-half-to-even) is modelled exactly by pyRound.
* Timestamps (timezone-aware datetimes normalized to UTC) are modelled as
  integer minutes since an arbitrary epoch; the functions under scrutiny only
  ever use hour-resolution and minute-resolution arithmetic on them.
* External libraries (shapely, pyproj, pysolar, math.tan/sin/cos) are not
  code of this repository; they are modelled as abstract operation bundles
  (GeoOps, PyMath) that the embedded repository code is parameterized by.
  All theorems about the repository code quantify over those bundles unless
  a concrete instance is needed for a concrete evaluation.
* Python exceptions are modelled with Except: repository code that can let
  an exception escape returns Except PyErr.
-/

/-! ## Python numeric helpers -/

/-- Round-half-to-even of a rational to an integer: the semantics of Python
built-in round(x) on exact values. -/
def roundHalfEven (q : ℚ) : ℤ :=
  if q - (⌊q⌋ : ℚ) < 1/2 then ⌊q⌋
  else if 1/2 < q - (⌊q⌋ : ℚ) then ⌊q⌋ + 1
  else if ⌊q⌋ % 2 = 0 then ⌊q⌋ else ⌊q⌋ + 1

/-- Python round(x, ndigits) on exact rationals. -/
def pyRound (ndigits : ℕ) (q : ℚ) : ℚ :=
  (roundHalfEven (q * (10 : ℚ) ^ ndigits) : ℚ) / (10 : ℚ) ^ ndigits

/-- Python float modulo (x % m for positive m): result in [0, m). -/
def pyMod (x m : ℚ) : ℚ := x - m * (⌊x / m⌋ : ℚ)

/-- Python list slicing l[:n] (n possibly negative), as used with an int
limit in compute_sunny_cafes. -/
def pySlice (n : ℤ) (xs : List α) : List α :=
  if 0 ≤ n then xs.take n.toNat else xs.take (xs.length - (-n).toNat)

/-- Semantics of the pattern `results[:limit] if limit else results` /
`if limit: return results[:limit]` of compute_sunny_cafes: None and 0 are
falsy and leave the list untouched. -/
def pyLimit (limit : Option ℤ) (xs : List α) : List α :=
  match limit with
  | none => xs
  | some n => if n = 0 then xs else pySlice n xs

theorem roundHalfEven_le (q : ℚ) : (roundHalfEven q : ℚ) ≤ q + 1/2 := by
  unfold roundHalfEven
  have hfl := Int.floor_le q
  have hfl2 : q - 1 < (⌊q⌋ : ℚ) := by
    have := Int.lt_floor_add_one q
    linarith
  split <;> rename_i h1
  · linarith
  · split <;> rename_i h2
    · push_cast; linarith
    · split <;> push_cast <;> linarith

theorem le_roundHalfEven (q : ℚ) : q - 1/2 ≤ (roundHalfEven q : ℚ) := by
  unfold roundHalfEven
  have hfl := Int.floor_le q
  have hfl2 : q < (⌊q⌋ : ℚ) + 1 := Int.lt_floor_add_one q
  split <;> rename_i h1
  · linarith
  · split <;> rename_i h2
    · push_cast; linarith
    · split <;> push_cast <;> linarith

theorem roundHalfEven_nonneg {q : ℚ} (h : 0 ≤ q) : 0 ≤ roundHalfEven q := by
  unfold roundHalfEven
  have h0 : (0 : ℤ) ≤ ⌊q⌋ := Int.floor_nonneg.mpr h
  split
  · exact h0
  · split
    · omega
    · split <;> omega

theorem roundHalfEven_le_of_le {q : ℚ} {n : ℤ} (hq : q ≤ (n : ℚ)) :
    (roundHalfEven q : ℚ) ≤ (n : ℚ) := by
  have hfloor : ⌊q⌋ ≤ n := by
    have := Int.floor_le_floor hq
    simpa using this
  have hfl : (⌊q⌋ : ℚ) ≤ q := Int.floor_le q
  have key : roundHalfEven q ≤ n := by
    unfold roundHalfEven
    split <;> rename_i h1
    · exact hfloor
    · have hlt : ⌊q⌋ < n := by
        rcases lt_or_eq_of_le hfloor with h | h
        · exact h
        · exfalso
          apply h1
          subst h
          linarith
      split
      · omega
      · split <;> omega
  exact_mod_cast key

theorem pyRound_nonneg {q : ℚ} (nd : ℕ) (h : 0 ≤ q) : 0 ≤ pyRound nd q := by
  unfold pyRound
  have : 0 ≤ roundHalfEven (q * (10 : ℚ) ^ nd) :=
    roundHalfEven_nonneg (by positivity)
  positivity

theorem pyRound_zero (nd : ℕ) : pyRound nd 0 = 0 := by
  unfold pyRound roundHalfEven
  norm_num

/-! ## Embedding of src/recommendations.py (merge_windows, rank_recommendations)

Hourly rows and windows are dicts in the source; we embed the fields the code
reads.  The time_utc field holds the result of parse_iso on the raw string
(minutes since epoch), or none when the field is missing or unparseable. -/

/-- One element of the hourly_rows input of merge_windows. -/
structure HourRow where
  condition : Option String
  time_utc : Option ℤ
deriving DecidableEq

/-- A window dict as produced by build_window.  start_utc / end_utc hold the
instants (minutes since epoch) that the ISO strings of the source denote. -/
structure SunWindow where
  start_utc : ℤ
  end_utc : ℤ
  duration_min : ℤ
  condition : String
deriving DecidableEq

/-- Embeds: condition in AVAILABLE_CONDITIONS, with the row's
condition defaulting to shaded when missing. -/
def isAvailableRow (row : HourRow) : Bool :=
  row.condition.getD "shaded" == "sunny" || row.condition.getD "shaded" == "partial"

/-- Embeds build_window of src/recommendations.py lines 175-194.  Callers
(merge_windows) always pass 0 <= start_idx <= end_idx < len(rows); out-of-range
access inside those bounds cannot occur there, so list lookup is total here. -/
def buildWindow (rows : List HourRow) (startIdx endIdx : ℤ) (conds : List String) :
    Option SunWindow :=
  if startIdx < 0 ∨ (rows.length : ℤ) ≤ endIdx then none
  else
    match rows.get? startIdx.toNat, rows.get? endIdx.toNat with
    | some startRow, some endRow =>
      match startRow.time_utc, endRow.time_utc with
      | some startT, some endStartT =>
        some { start_utc := startT
               end_utc := endStartT + 60
               duration_min := (endStartT + 60) - startT
               condition := if conds.all (· == "sunny") then "sunny" else "partial" }
      | _, _ => none
    | _, _ => none

/-- The close-a-run step of merge_windows: build the candidate window and keep
it only when its duration reaches min_duration_min. -/
def closeRun (rows : List HourRow) (minDur : ℤ) (s e : ℕ) (conds : List String) :
    List SunWindow :=
  match buildWindow rows (s : ℤ) (e : ℤ) conds with
  | some w => if minDur ≤ w.duration_min then [w] else []
  | none => []

/-- The enumerate loop of merge_windows: state is the current run
(start index, last available index) plus its accumulated condition strings. -/
def mergeAux (rows : List HourRow) (minDur : ℤ) :
    ℕ → List HourRow → Option (ℕ × ℕ) → List String → List SunWindow → List SunWindow
  | _, [], none, _, acc => acc
  | _, [], some (s, e), conds, acc => acc ++ closeRun rows minDur s e conds
  | idx, row :: rest, st, conds, acc =>
    if isAvailableRow row then
      mergeAux rows minDur (idx + 1) rest
        (some ((match st with | none => idx | some (s, _) => s), idx))
        (conds ++ [row.condition.getD "shaded"]) acc
    else
      match st with
      | none => mergeAux rows minDur (idx + 1) rest none [] acc
      | some (s, e) =>
        mergeAux rows minDur (idx + 1) rest none [] (acc ++ closeRun rows minDur s e conds)

/-- Embeds merge_windows of src/recommendations.py lines 36-68. -/
def mergeWindows (rows : List HourRow) (minDur : ℤ) : List SunWindow :=
  if rows.isEmpty then [] else mergeAux rows minDur 0 rows none [] []

/-- Hour-of-day (0..23) of a UTC instant given in minutes since epoch: the
value of datetime.hour on the UTC-normalized datetime. -/
def utcHour (t : ℤ) : ℤ := (t % 1440) / 60

/-- Modelled from the spec for claim C3 only (the code has no such
computation): the hour of the window's start rendered in the cafe's local
timezone, that timezone's UTC offset given in minutes. -/
def localStartHourSpec (tzOffsetMin start : ℤ) : ℤ := utcHour (start + tzOffsetMin)

/-- Python str.lower() restricted to its ASCII action, as a structural
function on the character list. -/
def pyLower (s : String) : String := ⟨s.data.map Char.toLower⟩

/-- Python str.strip(): whitespace removed from both ends. -/
def pyStrip (s : String) : String :=
  ⟨((s.data.dropWhile Char.isWhitespace).reverse.dropWhile Char.isWhitespace).reverse⟩

/-- Embeds window_matches_preference of src/recommendations.py lines
208-220.  The hour it inspects is the hour of the UTC-normalized start. -/
def windowMatchesPreference (start : ℤ) (preferredPeriods : List String) : Bool :=
  preferredPeriods.any fun period =>
    let p := pyLower (pyStrip period)
    let h := utcHour start
    (p == "morning" && decide (6 ≤ h) && decide (h < 11)) ||
    (p == "lunch" && decide (11 ≤ h) && decide (h < 14)) ||
    (p == "afternoon" && decide (14 ≤ h) && decide (h < 18)) ||
    (p == "evening" && decide (18 ≤ h) && decide (h < 22))

/-- The preferred_bonus term of rank_recommendations line 97. -/
def preferredBonus (start : ℤ) (preferredPeriods : List String) : ℚ :=
  if windowMatchesPreference start preferredPeriods then 10 else 0

/-- One window dict of a windows_by_cafe payload, as read by
rank_recommendations: start_utc / end_utc are the parse_iso results. -/
structure WinInput where
  start_utc : Option ℤ
  end_utc : Option ℤ
  duration_min : ℤ
  condition : Option String
deriving DecidableEq

/-- One value of the windows_by_cafe mapping. -/
structure CafePayload where
  cafe_name : Option String
  windows : List WinInput
deriving DecidableEq

/-- A recommendation item produced by rank_recommendations. -/
structure RecItem where
  cafe_id : String
  cafe_name : String
  start_utc : ℤ
  end_utc : ℤ
  duration_min : ℤ
  condition : String
  score : ℚ
  reason : String
deriving DecidableEq

/-- Sort key of rank_recommendations line 129: ascending lexicographic on
(-score, start_utc, cafe_name). -/
def recItemKey (it : RecItem) : ℚ ×ₗ (ℤ ×ₗ String) :=
  toLex (-it.score, toLex (it.start_utc, it.cafe_name))

/-- Boolean comparison handed to the stable sort modelling items.sort. -/
def recItemLE (a b : RecItem) : Bool := decide (recItemKey a ≤ recItemKey b)

/-- Embeds the per-window item construction of rank_recommendations
(src/recommendations.py lines 82-127). -/
def recItemsOf (preferredPeriods : List String) (now : ℤ)
    (cafeId : String) (payload : CafePayload) : List RecItem :=
  payload.windows.filterMap fun w =>
    match w.start_utc, w.end_utc with
    | some startT, some endT =>
      if endT ≤ now then none
      else
        let durationWeight : ℚ := min 40 ((w.duration_min : ℚ) / 3)
        let cond := w.condition.getD "partial"
        let conditionWeight : ℚ := if cond == "sunny" then 30 else 15
        let hoursUntil : ℚ := max 0 (((startT - now : ℤ) : ℚ) / 60)
        let soonnessWeight : ℚ := max 0 (20 - hoursUntil * 2)
        let bonus := preferredBonus startT preferredPeriods
        let reasonParts :=
          (if 90 ≤ w.duration_min then ["long sun window"]
           else if 45 ≤ w.duration_min then ["solid sun window"]
           else ["short sun window"]) ++
          (if 0 < bonus then ["matches preferred period"] else []) ++
          (if cond == "sunny" then ["high direct-sun potential"] else [])
        some { cafe_id := cafeId
               cafe_name := payload.cafe_name.getD "Unknown Cafe"
               start_utc := startT
               end_utc := endT
               duration_min := w.duration_min
               condition := cond
               score := pyRound 2 (durationWeight + conditionWeight + soonnessWeight + bonus)
               reason := String.intercalate ", " reasonParts }
    | _, _ => none

/-- Embeds rank_recommendations of src/recommendations.py lines 71-130.
The windows_by_cafe dict is modelled as an association list in insertion
order; items.sort is Python's stable sort on the line-129 key. -/
def rankRecommendations (windowsByCafe : List (String × CafePayload))
    (preferredPeriods : List String) (now : ℤ) : List RecItem :=
  (windowsByCafe.flatMap fun p => recItemsOf preferredPeriods now p.1 p.2).mergeSort
    recItemLE

/-! ## Embedding of src/api.py height resolution (resolve_height_m) -/

/-- A value of the raw OSM property dict.  A string value is carried together
with the result of float() on its cleaned form (lowercased, with the letter m
removed, stripped), since numeric-literal parsing is outside the code under
scrutiny. -/
inductive SVal where
  | none
  | num (q : ℚ)
  | str (content : String) (parsed : Option ℚ)
deriving DecidableEq

/-- Embeds as_float of src/api.py lines 45-56. -/
def asFloat : SVal → Option ℚ
  | .none => Option.none
  | .num q => some q
  | .str _ p => p

/-- The test pattern of resolve_height_m, `if x and x > 0`: the parsed value
provided it is truthy (nonzero) and positive, which is exactly positivity. -/
def posFloat (v : SVal) : Option ℚ :=
  (asFloat v).bind fun q => if 0 < q then some q else Option.none

/-- The raw properties of one building feature, restricted to the five keys
resolve_height_m reads. -/
structure BuildingProps where
  height : SVal
  byg054AntalEtager : SVal
  byg055AfvigendeEtager : SVal
  building_levels : SVal
  building : Option String
deriving DecidableEq

/-- The category lookup table of src/api.py lines 78-92. -/
def heightDefaults : List (String × ℚ) :=
  [("house", 8), ("residential", 9), ("apartments", 12), ("commercial", 14),
   ("retail", 12), ("office", 15), ("industrial", 11), ("warehouse", 10),
   ("hospital", 18), ("hotel", 20), ("school", 12), ("church", 22),
   ("cathedral", 25)]

/-- Embeds `(properties.get("building") or "yes").lower()`: a missing value
and the falsy empty string both fall back to yes. -/
def buildingType (p : BuildingProps) : String :=
  pyLower (match p.building with
   | some s => if s = "" then "yes" else s
   | Option.none => "yes")

/-- Embeds resolve_height_m of src/api.py lines 59-93. -/
def resolveHeightM (p : BuildingProps) : ℚ × String :=
  match posFloat p.height with
  | some h => (h, "height_tag")
  | Option.none =>
    match posFloat p.byg054AntalEtager with
    | some n => (n * 3, "bbr_floors")
    | Option.none =>
      match posFloat p.byg055AfvigendeEtager with
      | some n => (n * 3, "bbr_alt_floors")
      | Option.none =>
        match posFloat p.building_levels with
        | some n => (n * 3, "building_levels")
        | Option.none =>
          ((heightDefaults.lookup (buildingType p)).getD 9,
            "imputed_" ++ buildingType p)

/-! ## Embedding of src/shadow_engine.py

The shapely / pyproj libraries are external: their geometry objects and
primitive operations are abstracted into a GeoOps bundle over an arbitrary
geometry type G, and the trigonometric functions of the math module into a
PyMath bundle.  unary_union can raise GEOSException, hence Except.  All
repository control flow (including which exceptions escape) is embedded
exactly. -/

/-- A Python exception escaping a call. -/
inductive PyErr where
  | attributeError
  | geosException
  | indexError
deriving DecidableEq

/-- Abstract shapely / pyproj primitives.  treeQuery models
STRtree(geoms).query(area) returning an index array (shapely 2 semantics;
the source's isinstance branch converts the legacy geometry-array form to
the same indices via id_map). -/
structure GeoOps (G : Type) where
  isEmpty : G → Bool
  geomType : G → String
  isValid : G → Bool
  makeValid : G → G
  geoms : G → List G
  area : G → ℚ
  translate : G → ℚ → ℚ → G
  exteriorCoords : G → List (ℚ × ℚ)
  mkPolygon : List (ℚ × ℚ) → G
  unaryUnion : List G → Except Unit G
  covers : G → G → Bool
  mkPoint : ℚ × ℚ → G
  buffer : G → ℚ → G
  treeQuery : List G → G → List ℕ
  toUTM : ℚ × ℚ → ℚ × ℚ

/-- Values of math.tan, math.sin, math.cos composed with math.radians, as an
oracle (the engine only branches on their signs and feeds them to geometry). -/
structure PyMath where
  tanDeg : ℚ → ℚ
  sinDeg : ℚ → ℚ
  cosDeg : ℚ → ℚ

/-- Max shadow length cap of src/shadow_engine.py line 26 (meters). -/
def MAX_SHADOW_LENGTH : ℚ := 500

/-- Minimum sun elevation of src/shadow_engine.py line 28 (degrees). -/
def MIN_SUN_ELEVATION : ℚ := 2

/-- Embeds azimuth_to_vector: north-clockwise azimuth to east/north offsets. -/
def azimuthToVector (pymath : PyMath) (azimuthDeg length : ℚ) : ℚ × ℚ :=
  (pymath.sinDeg azimuthDeg * length, pymath.cosDeg azimuthDeg * length)

/-- Embeds iter_polygons of src/shadow_engine.py lines 63-70. -/
def iterPolygons (ops : GeoOps G) (g : G) : List G :=
  if ops.geomType g == "Polygon" then (if ops.isEmpty g then [] else [g])
  else if ops.geomType g == "MultiPolygon" then
    (ops.geoms g).filter (fun p => !ops.isEmpty p)
  else []

/-- Python max(candidates, key=area): first element of maximal area. -/
def maxByArea (ops : GeoOps G) (c : G) (cs : List G) : G :=
  cs.foldl (fun best p => if ops.area best < ops.area p then p else best) c

/-- The validity fix-up prologue of shadow_for_polygon (lines 77-82): an
invalid polygon is repaired; a repair without polygonal parts yields none. -/
def shadowValidityFix (ops : GeoOps G) (poly : G) : Option G :=
  if ops.isValid poly then some poly
  else
    match (if ops.geomType (ops.makeValid poly) == "Polygon"
              || ops.geomType (ops.makeValid poly) == "MultiPolygon"
           then iterPolygons ops (ops.makeValid poly) else []) with
    | [] => none
    | c :: cs => some (maxByArea ops c cs)

/-- The edge-quadrilateral pieces of shadow_for_polygon (lines 87-100). -/
def quadPieces (ops : GeoOps G) (poly : G) (dx dy : ℚ) : List G :=
  ((ops.exteriorCoords poly).zip (ops.exteriorCoords poly).tail).filterMap fun pq =>
    let quad := ops.mkPolygon
      [pq.1, pq.2, (pq.2.1 + dx, pq.2.2 + dy), (pq.1.1 + dx, pq.1.2 + dy)]
    if !ops.isEmpty quad && ops.isValid quad then some quad else none

/-- Embeds shadow_for_polygon of src/shadow_engine.py lines 73-112.
Returns ok none where the source returns None; a GEOSException raised by the
retried union on line 112 is uncaught and escapes. -/
def shadowForPolygon (ops : GeoOps G) (poly : G) (dx dy : ℚ) : Except PyErr (Option G) :=
  match shadowValidityFix ops poly with
  | none => .ok none
  | some poly =>
    let pieces := [poly, ops.translate poly dx dy] ++ quadPieces ops poly dx dy
    match ops.unaryUnion pieces with
    | .ok u => .ok (some u)
    | .error _ =>
      match (pieces.map fun g => if ops.isValid g then g else ops.makeValid g).filter
          (fun g => ops.geomType g == "Polygon" || ops.geomType g == "MultiPolygon") with
      | [] => .ok none
      | g :: gs =>
        match ops.unaryUnion (g :: gs) with
        | .ok u => .ok (some u)
        | .error _ => .error .geosException

/-- The per-polygon loop of project_shadow lines 136-140.  The source reads
shadow.is_empty without a None check, so a part for which
shadow_for_polygon returned None raises AttributeError. -/
def shadowPiecesLoop (ops : GeoOps G) (dx dy : ℚ) :
    List G → List G → Except PyErr (List G)
  | [], acc => .ok acc
  | p :: rest, acc =>
    match shadowForPolygon ops p dx dy with
    | .error e => .error e
    | .ok none => .error .attributeError
    | .ok (some s) =>
      shadowPiecesLoop ops dx dy rest (if !ops.isEmpty s then acc ++ [s] else acc)

/-- Embeds project_shadow of src/shadow_engine.py lines 115-146. -/
def projectShadow (ops : GeoOps G) (pymath : PyMath) (buildingGeom : G)
    (heightM sunAzimuthDeg sunElevationDeg : ℚ) : Except PyErr (Option G) :=
  if sunElevationDeg ≤ MIN_SUN_ELEVATION ∨ heightM ≤ 0 then .ok none
  else
    if pymath.tanDeg sunElevationDeg ≤ 0 then .ok none
    else
      if min MAX_SHADOW_LENGTH (heightM / pymath.tanDeg sunElevationDeg) ≤ 0 then .ok none
      else
        match shadowPiecesLoop ops
            (azimuthToVector pymath (pyMod (sunAzimuthDeg + 180) 360)
              (min MAX_SHADOW_LENGTH (heightM / pymath.tanDeg sunElevationDeg))).1
            (azimuthToVector pymath (pyMod (sunAzimuthDeg + 180) 360)
              (min MAX_SHADOW_LENGTH (heightM / pymath.tanDeg sunElevationDeg))).2
            (iterPolygons ops buildingGeom) [] with
        | .error e => .error e
        | .ok [] => .ok none
        | .ok [p] => .ok (some p)
        | .ok pieces =>
          match ops.unaryUnion pieces with
          | .ok u => .ok (some u)
          | .error _ => .error .geosException

/-- A BuildingRecord of src/shadow_engine.py lines 31-38. -/
structure BuildingRec (G : Type) where
  geom_utm : G
  height_m : ℚ
  osm_id : Option ℤ
  height_source : String

/-- The index bundle built by build_building_index; index is None when no
geometry survived filtering, else the STRtree over the geometry list. -/
structure IndexBundle (G : Type) where
  records : List (BuildingRec G)
  geometries : List G
  index : Option (List G)
  max_height_m : ℚ

/-- One raw building dict handed to build_building_index. -/
structure BuildingItem (G : Type) where
  geom_utm : Option G
  geometry_utm : Option G
  geometry : Option G
  height_m : Option ℚ
  osm_id : Option ℤ
  height_source : Option String

/-- The geometry selection `item.get("geom_utm") or item.get("geometry_utm")
or item.get("geometry")` followed by the None/empty skip: the first present,
non-empty geometry (an empty shapely geometry is falsy). -/
def pickGeom (ops : GeoOps G) (item : BuildingItem G) : Option G :=
  ([item.geom_utm, item.geometry_utm, item.geometry].filterMap id).find?
    (fun g => !ops.isEmpty g)

/-- Embeds build_building_index of src/shadow_engine.py lines 149-187. -/
def buildBuildingIndex (ops : GeoOps G) (items : List (BuildingItem G)) : IndexBundle G :=
  let step := items.foldl
    (fun (acc : List (BuildingRec G) × List G) item =>
      match pickGeom ops item with
      | none => acc
      | some geom =>
        if !(ops.geomType geom == "Polygon" || ops.geomType geom == "MultiPolygon") then acc
        else if item.height_m.getD 0 ≤ 0 then acc
        else
          (acc.1 ++ [{ geom_utm := geom, height_m := item.height_m.getD 0,
                       osm_id := item.osm_id,
                       height_source := item.height_source.getD "unknown" }],
           acc.2 ++ [geom]))
    ([], [])
  { records := step.1
    geometries := step.2
    index := if step.2.isEmpty then none else some step.2
    max_height_m := ((step.1.map (·.height_m)).max?).getD 20 }

/-- Embeds query_candidate_indices of src/shadow_engine.py lines 190-204. -/
def queryCandidateIndices (ops : GeoOps G) (bundle : IndexBundle G) (searchArea : G) :
    List ℕ :=
  match bundle.index with
  | none => []
  | some geoms => ops.treeQuery geoms searchArea

/-- Embeds estimate_seating_point of src/seating_heuristic.py. -/
def estimateSeatingPoint (lon lat offsetMeters : ℚ) : ℚ × ℚ :=
  (lon, lat - offsetMeters / 111320)

/-- Embeds candidate_seating_points of src/shadow_engine.py lines 207-220:
always three sample points. -/
def candidateSeatingPoints (pymath : PyMath) (lon lat : ℚ) : List (ℚ × ℚ) :=
  [estimateSeatingPoint lon lat 5,
   ((estimateSeatingPoint lon lat 5).1 - 5/2 / max 1 (111320 * pymath.cosDeg lat),
    (estimateSeatingPoint lon lat 5).2),
   ((estimateSeatingPoint lon lat 5).1 + 5/2 / max 1 (111320 * pymath.cosDeg lat),
    (estimateSeatingPoint lon lat 5).2)]

/-- Embeds cloud_factor of src/shadow_engine.py lines 223-225: the cloud
cover is clamped to [0, 100] and turned into an attenuation in [0, 1]. -/
def cloudFactor (cloudCoverPct : ℚ) : ℚ := 1 - max 0 (min 100 cloudCoverPct) / 100

/-- One cafe GeoJSON feature, restricted to the fields the engine reads. -/
structure CafeFeature where
  osm_id : Option ℤ
  name : Option String
  lon : Option ℚ
  lat : Option ℚ
deriving DecidableEq

/-- One per-cafe result dict of compute_sunny_cafes. -/
structure CafeResult where
  osm_id : Option ℤ
  name : String
  lon : Option ℚ
  lat : Option ℚ
  sunny_score : ℚ
  sunny_fraction : ℚ
  in_shadow : Bool
  sun_elevation_deg : ℚ
  sun_azimuth_deg : ℚ
  cloud_cover_pct : ℚ
deriving DecidableEq

/-- The record built in the low-elevation branch (lines 252-271). -/
def lowElevationRecord (sunAz sunElev cloud : ℚ) (f : CafeFeature) : CafeResult :=
  { osm_id := f.osm_id
    name := f.name.getD "Unknown Cafe"
    lon := f.lon
    lat := f.lat
    sunny_score := 0
    sunny_fraction := 0
    in_shadow := true
    sun_elevation_deg := pyRound 2 sunElev
    sun_azimuth_deg := pyRound 2 sunAz
    cloud_cover_pct := pyRound 1 cloud }

/-- The request-scoped context shared by the main loop of
compute_sunny_cafes after the low-elevation early exit. -/
structure ShadeCtx (G : Type) where
  ops : GeoOps G
  pymath : PyMath
  bundle : IndexBundle G
  sunAz : ℚ
  sunElev : ℚ
  maxShadowSearch : ℚ

/-- The shadow-cache consultation of lines 296-306: compute (and memoize)
the candidate building's shadow.  An index outside the records list would be
a Python IndexError (the STRtree only ever yields in-range indices). -/
def cachedShadow (ctx : ShadeCtx G) (cache : List (ℕ × Option G)) (idx : ℕ) :
    Except PyErr (List (ℕ × Option G) × Option G) :=
  match cache.lookup idx with
  | some sp => .ok (cache, sp)
  | none =>
    match ctx.bundle.records.get? idx with
    | none => .error .indexError
    | some rec =>
      match projectShadow ctx.ops ctx.pymath rec.geom_utm rec.height_m
          ctx.sunAz ctx.sunElev with
      | .error e => .error e
      | .ok sp => .ok ((idx, sp) :: cache, sp)

/-- The candidate loop of lines 295-310: first covering shadow wins. -/
def candidateShadeLoop (ctx : ShadeCtx G) (seatPoint : G) :
    List ℕ → List (ℕ × Option G) → Except PyErr (List (ℕ × Option G) × Bool)
  | [], cache => .ok (cache, false)
  | idx :: rest, cache =>
    match cachedShadow ctx cache idx with
    | .error e => .error e
    | .ok (cache1, sp) =>
      match sp with
      | some s =>
        if ctx.ops.covers s seatPoint then .ok (cache1, true)
        else candidateShadeLoop ctx seatPoint rest cache1
      | none => candidateShadeLoop ctx seatPoint rest cache1

/-- The seating-sample loop of lines 288-313, counting unshaded samples. -/
def seatLoop (ctx : ShadeCtx G) :
    List (ℚ × ℚ) → List (ℕ × Option G) → ℕ → Except PyErr (List (ℕ × Option G) × ℕ)
  | [], cache, n => .ok (cache, n)
  | pt :: rest, cache, n =>
    match candidateShadeLoop ctx (ctx.ops.mkPoint (ctx.ops.toUTM pt))
        (queryCandidateIndices ctx.ops ctx.bundle
          (ctx.ops.buffer (ctx.ops.mkPoint (ctx.ops.toUTM pt)) (ctx.maxShadowSearch + 3)))
        cache with
    | .error e => .error e
    | .ok (cache1, shaded) => seatLoop ctx rest cache1 (if shaded then n else n + 1)

/-- Line 315: sunny_count / max(1, len(seating_points_lonlat)). -/
def sampleFraction (ctx : ShadeCtx G) (lon lat : ℚ) (sunnyCount : ℕ) : ℚ :=
  (sunnyCount : ℚ) / ((max 1 (candidateSeatingPoints ctx.pymath lon lat).length : ℕ) : ℚ)

/-- The result dict appended on lines 318-331 for a cafe with coordinates. -/
def mainRecord (ctx : ShadeCtx G) (cloud weatherFactor : ℚ) (f : CafeFeature)
    (lon lat : ℚ) (sunnyCount : ℕ) : CafeResult :=
  { osm_id := f.osm_id
    name := f.name.getD "Unknown Cafe"
    lon := some lon
    lat := some lat
    sunny_score := pyRound 1 (100 * sampleFraction ctx lon lat sunnyCount * weatherFactor)
    sunny_fraction := pyRound 3 (sampleFraction ctx lon lat sunnyCount)
    in_shadow := decide (sampleFraction ctx lon lat sunnyCount = 0)
    sun_elevation_deg := pyRound 2 ctx.sunElev
    sun_azimuth_deg := pyRound 2 ctx.sunAz
    cloud_cover_pct := pyRound 1 cloud }

/-- The per-cafe loop of lines 278-331: cafes without usable coordinates are
skipped; a result record is appended for the rest. -/
def cafeLoop (ctx : ShadeCtx G) (cloud weatherFactor : ℚ) :
    List CafeFeature → List (ℕ × Option G) → List CafeResult → Except PyErr (List CafeResult)
  | [], _, acc => .ok acc
  | f :: rest, cache, acc =>
    match f.lon, f.lat with
    | some lon, some lat =>
      match seatLoop ctx (candidateSeatingPoints ctx.pymath lon lat) cache 0 with
      | .error e => .error e
      | .ok (cache1, sunnyCount) =>
        cafeLoop ctx cloud weatherFactor rest cache1
          (acc ++ [mainRecord ctx cloud weatherFactor f lon lat sunnyCount])
    | _, _ => cafeLoop ctx cloud weatherFactor rest cache acc

/-- Sort key of compute_sunny_cafes line 333. -/
def resultKey (r : CafeResult) : ℚ ×ₗ (ℚ ×ₗ String) :=
  toLex (r.sunny_score, toLex (r.sunny_fraction, r.name))

/-- Stable descending comparison modelling sort(key=..., reverse=True):
a may precede b exactly when the key of b does not lexicographically exceed
the key of a. -/
def resultDescLE (a b : CafeResult) : Bool := decide (resultKey b ≤ resultKey a)

/-- Python stable sort of the result records, descending by resultKey. -/
def sortResults (rs : List CafeResult) : List CafeResult := rs.mergeSort resultDescLE

/-- The buildings argument of compute_sunny_cafes: either a raw list or an
already-built index bundle (line 241 dispatches on the dict shape). -/
inductive BuildingsArg (G : Type) where
  | list (items : List (BuildingItem G))
  | bundle (b : IndexBundle G)

/-- Line 241: reuse a passed bundle, else build one from the raw list. -/
def resolveIndexBundle (ops : GeoOps G) : BuildingsArg G → IndexBundle G
  | .bundle b => b
  | .list items => buildBuildingIndex ops items

/-- The context of the main loop: lines 273-277 (tan of the shared
elevation, the bounded worst-case search radius, the resolved bundle). -/
def mainCtx (ops : GeoOps G) (pymath : PyMath) (buildings : BuildingsArg G)
    (sunAz sunElev : ℚ) : ShadeCtx G :=
  { ops := ops, pymath := pymath
    bundle := resolveIndexBundle ops buildings
    sunAz := sunAz, sunElev := sunElev
    maxShadowSearch :=
      if 0 < pymath.tanDeg sunElev then
        min MAX_SHADOW_LENGTH
          ((resolveIndexBundle ops buildings).max_height_m / pymath.tanDeg sunElev)
      else MAX_SHADOW_LENGTH }

/-- Embeds compute_sunny_cafes of src/shadow_engine.py lines 228-336.
sunAz / sunElev stand for the pair returned by the external pysolar call
get_sun_position at the fixed reference point for the request instant. -/
def computeSunnyCafes (ops : GeoOps G) (pymath : PyMath) (cafes : List CafeFeature)
    (buildings : BuildingsArg G) (sunAz sunElev cloud : ℚ) (limit : Option ℤ) :
    Except PyErr (List CafeResult) :=
  if cafes.isEmpty then .ok []
  else
    if sunElev ≤ MIN_SUN_ELEVATION then
      .ok (pyLimit limit (cafes.map (lowElevationRecord sunAz sunElev cloud)))
    else
      match cafeLoop (mainCtx ops pymath buildings sunAz sunElev)
          cloud (cloudFactor cloud) cafes [] [] with
      | .error e => .error e
      | .ok results => .ok (pyLimit limit (sortResults results))

/-- Real-number semantics of the shadow length computed on lines 125-129 of
src/shadow_engine.py (math.tan over math.radians taken exactly):
min(MAX_SHADOW_LENGTH, height / tan(radians(elevation))). -/
noncomputable def shadowLength (heightM elevationDeg : ℝ) : ℝ :=
  min 500 (heightM / Real.tan (elevationDeg * (Real.pi / 180)))

/-! ## Concrete instances used for closed evaluations -/

/-- A degenerate geometry backend over Unit: one valid, empty-free polygon
with no exterior ring; unions always succeed; nothing covers anything.  Used
to run compute_sunny_cafes concretely with no obstructing buildings. -/
def unitOps : GeoOps Unit :=
  { isEmpty := fun _ => false
    geomType := fun _ => "Polygon"
    isValid := fun _ => true
    makeValid := id
    geoms := fun _ => []
    area := fun _ => 0
    translate := fun g _ _ => g
    exteriorCoords := fun _ => []
    mkPolygon := fun _ => ()
    unaryUnion := fun _ => .ok ()
    covers := fun _ _ => false
    mkPoint := fun _ => ()
    buffer := fun g _ => g
    treeQuery := fun _ _ => []
    toUTM := id }

/-- Trigonometry oracle with tan = 1, sin = 0, cos = 1 at every input. -/
def unitMath : PyMath :=
  { tanDeg := fun _ => 1, sinDeg := fun _ => 0, cosDeg := fun _ => 1 }

/-- A geometry backend over ℕ realizing what shapely does to a collapsed
(collinear-ring) polygon: geometry 0 is an invalid Polygon whose make_valid
repair (geometry 1) is a LineString, exactly the behaviour of
make_valid(Polygon([(0,0),(1,1),(2,2)])). -/
def lineOps : GeoOps ℕ :=
  { isEmpty := fun _ => false
    geomType := fun n => if n = 0 then "Polygon" else "LineString"
    isValid := fun _ => false
    makeValid := fun _ => 1
    geoms := fun _ => []
    area := fun _ => 0
    translate := fun g _ _ => g
    exteriorCoords := fun _ => []
    mkPolygon := fun _ => 0
    unaryUnion := fun _ => .ok 0
    covers := fun _ _ => false
    mkPoint := fun _ => 0
    buffer := fun g _ => g
    treeQuery := fun _ _ => []
    toUTM := id }

/-- An index bundle over zero buildings (as built by build_building_index). -/
def emptyBundle : IndexBundle Unit :=
  { records := [], geometries := [], index := none, max_height_m := 20 }

/-- The four-hour example of the window-merge claim: conditions
[partial, sunny, shaded, sunny] on consecutive hours. -/
def exampleRows : List HourRow :=
  [⟨some "partial", some 0⟩, ⟨some "sunny", some 60⟩,
   ⟨some "shaded", some 120⟩, ⟨some "sunny", some 180⟩]

/-- A cafe feature with coordinates. -/
def cafeA : CafeFeature := ⟨some 1, some "A", some 12, some 55⟩

/-- A second cafe feature with coordinates and a larger name. -/
def cafeB : CafeFeature := ⟨some 2, some "B", some 13, some 56⟩

/-- A cafe feature whose geometry carries no usable coordinates. -/
def cafeNoCoords : CafeFeature := ⟨some 3, some "C", none, none⟩

/-- The single window the merge example must produce: first two hours,
120 minutes, condition partial. -/
def exampleWindow : SunWindow :=
  { start_utc := 0, end_utc := 120, duration_min := 120, condition := "partial" }

/-- The skip test of compute_sunny_cafes lines 281-283: a feature is kept
exactly when both coordinates are present. -/
def cafeHasCoords (f : CafeFeature) : Bool := f.lon.isSome && f.lat.isSome

/-- The record the engine produces for cafeA in the concrete main-branch run
(elevation 45, azimuth 0, cloud 0, no buildings): all three samples sunny. -/
def resA : CafeResult := ⟨some 1, "A", some 12, some 55, 100, 1, false, 45, 0, 0⟩

/-- Two result records tied on sunny_score and sunny_fraction, differing
only in name, for the literal tie-break example. -/
def tiedA : CafeResult := ⟨none, "A", none, none, 100, 1, false, 45, 180, 0⟩

/-- The second of the tied records: lexicographically larger name. -/
def tiedB : CafeResult := ⟨none, "B", none, none, 100, 1, false, 45, 180, 0⟩

/-! ## Helper lemmas about compute_sunny_cafes -/

theorem pyLimit_nil (limit : Option ℤ) : pyLimit limit ([] : List α) = [] := by
  cases limit with
  | none => rfl
  | some n =>
    simp only [pyLimit, pySlice]
    split
    · rfl
    · split <;> simp

theorem mem_pyLimit {limit : Option ℤ} {xs : List α} {x : α}
    (hx : x ∈ pyLimit limit xs) : x ∈ xs := by
  cases limit with
  | none => exact hx
  | some n =>
    simp only [pyLimit, pySlice] at hx
    split at hx
    · exact hx
    · split at hx <;> exact List.take_subset _ _ hx

theorem pyLimit_pos {l : ℤ} (hl : 0 < l) (xs : List α) :
    pyLimit (some l) xs = xs.take l.toNat := by
  simp only [pyLimit, pySlice]
  rw [if_neg (by omega), if_pos (by omega)]

theorem computeSunnyCafes_low {G : Type} (ops : GeoOps G) (pymath : PyMath)
    (cafes : List CafeFeature) (b : BuildingsArg G) (sunAz sunElev cloud : ℚ)
    (limit : Option ℤ) (h : sunElev ≤ MIN_SUN_ELEVATION) :
    computeSunnyCafes ops pymath cafes b sunAz sunElev cloud limit =
      .ok (pyLimit limit (cafes.map (lowElevationRecord sunAz sunElev cloud))) := by
  unfold computeSunnyCafes
  by_cases hc : cafes.isEmpty
  · rw [if_pos hc, List.isEmpty_iff.mp hc]
    simp [pyLimit_nil]
  · rw [if_neg hc, if_pos h]

theorem seatLoop_count_le {G : Type} (ctx : ShadeCtx G) :
    ∀ (pts : List (ℚ × ℚ)) (cache : List (ℕ × Option G)) (n : ℕ)
      (cache' : List (ℕ × Option G)) (n' : ℕ),
      seatLoop ctx pts cache n = .ok (cache', n') → n' ≤ n + pts.length := by
  intro pts
  induction pts with
  | nil =>
    intro cache n cache' n' h
    simp only [seatLoop] at h
    cases h
    simp
  | cons pt rest ih =>
    intro cache n cache' n' h
    simp only [seatLoop] at h
    cases hcl : candidateShadeLoop ctx (ctx.ops.mkPoint (ctx.ops.toUTM pt))
        (queryCandidateIndices ctx.ops ctx.bundle
          (ctx.ops.buffer (ctx.ops.mkPoint (ctx.ops.toUTM pt)) (ctx.maxShadowSearch + 3)))
        cache with
    | error e => rw [hcl] at h; cases h
    | ok res =>
      rw [hcl] at h
      have hle := ih res.1 (if res.2 then n else n + 1) cache' n' h
      have hb : (if res.2 = true then n else n + 1) ≤ n + 1 := by split <;> omega
      simp only [List.length_cons]
      omega

theorem cafeLoop_ok_mem {G : Type} (ctx : ShadeCtx G) (cloud wf : ℚ) :
    ∀ (cafes : List CafeFeature) (cache : List (ℕ × Option G))
      (acc out : List CafeResult),
      cafeLoop ctx cloud wf cafes cache acc = .ok out →
      ∀ r ∈ out, r ∈ acc ∨ ∃ (f : CafeFeature) (lon lat : ℚ) (n : ℕ),
        n ≤ 3 ∧ r = mainRecord ctx cloud wf f lon lat n := by
  intro cafes
  induction cafes with
  | nil =>
    intro cache acc out h r hr
    simp only [cafeLoop] at h
    cases h
    exact Or.inl hr
  | cons f rest ih =>
    intro cache acc out h r hr
    obtain ⟨fid, fname, flon, flat⟩ := f
    cases flon with
    | none =>
      simp only [cafeLoop] at h
      exact ih cache acc out h r hr
    | some lon =>
      cases flat with
      | none =>
        simp only [cafeLoop] at h
        exact ih cache acc out h r hr
      | some lat =>
        simp only [cafeLoop] at h
        cases hseat : seatLoop ctx (candidateSeatingPoints ctx.pymath lon lat) cache 0 with
        | error e => rw [hseat] at h; cases h
        | ok res =>
          rw [hseat] at h
          rcases ih res.1 _ out h r hr with hmem | hmem
          · rcases List.mem_append.mp hmem with h1 | h1
            · exact Or.inl h1
            · refine Or.inr ⟨⟨fid, fname, some lon, some lat⟩, lon, lat, res.2, ?_,
                List.mem_singleton.mp h1⟩
              have hcnt := seatLoop_count_le ctx _ cache 0 res.1 res.2 (by rw [hseat])
              simpa [candidateSeatingPoints] using hcnt
          · exact Or.inr hmem

theorem sampleFraction_eq {G : Type} (ctx : ShadeCtx G) (lon lat : ℚ) (n : ℕ) :
    sampleFraction ctx lon lat n = (n : ℚ) / 3 := by
  simp [sampleFraction, candidateSeatingPoints]

theorem cloudFactor_nonneg (c : ℚ) : 0 ≤ cloudFactor c := by
  unfold cloudFactor
  have h2 : max 0 (min 100 c) ≤ 100 := max_le (by norm_num) (min_le_left _ _)
  linarith

theorem cloudFactor_le_one (c : ℚ) : cloudFactor c ≤ 1 := by
  unfold cloudFactor
  have h1 : (0 : ℚ) ≤ max 0 (min 100 c) := le_max_left _ _
  linarith

theorem cloudFactor_at_hundred {c : ℚ} (hc : 100 ≤ c) : cloudFactor c = 0 := by
  unfold cloudFactor
  rw [min_eq_left hc]
  norm_num

theorem cloudFactor_at_zero {c : ℚ} (hc : c ≤ 0) : cloudFactor c = 1 := by
  unfold cloudFactor
  rw [min_eq_right (le_trans hc (by norm_num)), max_eq_left hc]
  norm_num

theorem pyRound_one_le_100 {x : ℚ} (hx : x ≤ 100) : pyRound 1 x ≤ 100 := by
  unfold pyRound
  have h : (roundHalfEven (x * 10 ^ 1) : ℚ) ≤ ((1000 : ℤ) : ℚ) :=
    roundHalfEven_le_of_le (by push_cast; linarith)
  push_cast at h
  norm_num at h ⊢
  linarith

theorem pyRound_one_eq_100_mul_pyRound_three (f : ℚ) :
    pyRound 1 (100 * f) = 100 * pyRound 3 f := by
  unfold pyRound
  rw [show 100 * f * (10 : ℚ) ^ (1 : ℕ) = f * (10 : ℚ) ^ (3 : ℕ) by ring]
  ring

theorem mainCtx_pymath {G : Type} (ops : GeoOps G) (pymath : PyMath)
    (b : BuildingsArg G) (az elev : ℚ) :
    (mainCtx ops pymath b az elev).pymath = pymath := rfl

theorem mainCtx_ops {G : Type} (ops : GeoOps G) (pymath : PyMath)
    (b : BuildingsArg G) (az elev : ℚ) :
    (mainCtx ops pymath b az elev).ops = ops := rfl

theorem mainCtx_bundle {G : Type} (ops : GeoOps G) (pymath : PyMath)
    (b : IndexBundle G) (az elev : ℚ) :
    (mainCtx ops pymath (.bundle b) az elev).bundle = b := rfl

theorem mergeSort_pair {α : Type} (le : α → α → Bool) (a b : α) :
    List.mergeSort [a, b] le = if le a b then [a, b] else [b, a] := by
  rw [List.mergeSort]
  simp [List.merge]

theorem resultDescLE_trans :
    ∀ a b c : CafeResult, resultDescLE a b → resultDescLE b c → resultDescLE a c := by
  intro a b c h1 h2
  simp only [resultDescLE, decide_eq_true_eq] at h1 h2 ⊢
  exact le_trans h2 h1

theorem resultDescLE_total : ∀ a b : CafeResult, resultDescLE a b || resultDescLE b a := by
  intro a b
  simp only [resultDescLE, Bool.or_eq_true, decide_eq_true_eq]
  exact le_total (resultKey b) (resultKey a)

theorem tied_names_sort : sortResults [tiedA, tiedB] = [tiedB, tiedA] := by
  have hBA : ¬ (("B" : String) ≤ "A") := by
    rw [String.le_iff_toList_le]
    decide
  have hd : resultDescLE tiedA tiedB = false := by
    simp only [resultDescLE, resultKey, tiedA, tiedB, decide_eq_false_iff_not]
    intro hle
    rcases (Prod.Lex.le_iff _ _).mp hle with h | ⟨_, h2⟩
    · norm_num at h
    · rcases (Prod.Lex.le_iff _ _).mp h2 with h | ⟨_, h3⟩
      · norm_num at h
      · exact hBA h3
  rw [sortResults, mergeSort_pair, hd]
  simp

theorem cafeLoop_filter {G : Type} (ctx : ShadeCtx G) (cloud wf : ℚ) :
    ∀ (cafes : List CafeFeature) (cache : List (ℕ × Option G)) (acc : List CafeResult),
      cafeLoop ctx cloud wf cafes cache acc =
        cafeLoop ctx cloud wf (cafes.filter cafeHasCoords) cache acc := by
  intro cafes
  induction cafes with
  | nil => intro cache acc; rfl
  | cons f rest ih =>
    intro cache acc
    obtain ⟨fid, fname, flon, flat⟩ := f
    cases flon with
    | none =>
      have hfc : cafeHasCoords ⟨fid, fname, none, flat⟩ = false := by
        simp [cafeHasCoords]
      simp only [cafeLoop, List.filter_cons, hfc, Bool.false_eq_true, if_false]
      exact ih cache acc
    | some lon =>
      cases flat with
      | none =>
        have hfc : cafeHasCoords ⟨fid, fname, some lon, none⟩ = false := by
          simp [cafeHasCoords]
        simp only [cafeLoop, List.filter_cons, hfc, Bool.false_eq_true, if_false]
        exact ih cache acc
      | some lat =>
        have hfc : cafeHasCoords ⟨fid, fname, some lon, some lat⟩ = true := by
          simp [cafeHasCoords]
        simp only [List.filter_cons, hfc, if_true, cafeLoop]
        cases hseat : seatLoop ctx (candidateSeatingPoints ctx.pymath lon lat) cache 0 with
        | error e => rfl
        | ok res => exact ih res.1 _

theorem concreteMainRun :
    computeSunnyCafes unitOps unitMath [cafeA, cafeNoCoords] (.bundle emptyBundle)
      0 45 0 none = .ok [resA] := by
  have h1 : mainRecord (mainCtx unitOps unitMath (.bundle emptyBundle) 0 45) 0
      (cloudFactor 0) cafeA 12 55 3 = resA := by
    simp only [mainRecord, sampleFraction_eq, mainCtx, cafeA, resA, CafeResult.mk.injEq]
    norm_num [cloudFactor, pyRound, roundHalfEven]
  have hloop : cafeLoop (mainCtx unitOps unitMath (.bundle emptyBundle) 0 45) 0
      (cloudFactor 0) [cafeA, cafeNoCoords] [] [] = .ok [resA] := by
    simp only [cafeLoop, cafeA, cafeNoCoords, seatLoop, candidateShadeLoop,
      candidateSeatingPoints, estimateSeatingPoint, queryCandidateIndices,
      mainCtx_pymath, mainCtx_ops, mainCtx_bundle, emptyBundle,
      Bool.false_eq_true, if_false, List.nil_append]
    norm_num
    exact h1
  unfold computeSunnyCafes
  rw [if_neg (by decide), if_neg (by norm_num [MIN_SUN_ELEVATION]), hloop]
  simp [sortResults, pyLimit]

/-! ## Helper lemmas about merge_windows -/

theorem buildWindow_condition {rows : List HourRow} {s e : ℤ} {conds : List String}
    {w : SunWindow} (h : buildWindow rows s e conds = some w) :
    w.condition = if conds.all (· == "sunny") then "sunny" else "partial" := by
  unfold buildWindow at h
  split at h
  · exact absurd h (by simp)
  · split at h
    · split at h
      · cases h
        rfl
      · exact absurd h (by simp)
    · exact absurd h (by simp)

theorem mem_closeRun_prop {rows : List HourRow} {minDur : ℤ} {s e : ℕ}
    {conds : List String} {w : SunWindow} (hw : w ∈ closeRun rows minDur s e conds) :
    minDur ≤ w.duration_min ∧ (w.condition = "sunny" ∨ w.condition = "partial") := by
  unfold closeRun at hw
  split at hw <;> rename_i heq
  · split at hw <;> rename_i hdur
    · simp only [List.mem_singleton] at hw
      subst hw
      refine ⟨hdur, ?_⟩
      rw [buildWindow_condition heq]
      split <;> simp
    · simp at hw
  · simp at hw

theorem mergeAux_mem_prop (rows : List HourRow) (minDur : ℤ) :
    ∀ (rest : List HourRow) (idx : ℕ) (st : Option (ℕ × ℕ)) (conds : List String)
      (acc : List SunWindow),
      (∀ w ∈ acc, minDur ≤ w.duration_min ∧
        (w.condition = "sunny" ∨ w.condition = "partial")) →
      ∀ w ∈ mergeAux rows minDur idx rest st conds acc,
        minDur ≤ w.duration_min ∧ (w.condition = "sunny" ∨ w.condition = "partial") := by
  intro rest
  induction rest with
  | nil =>
    intro idx st conds acc hacc w hw
    match st with
    | none => exact hacc w hw
    | some (s, e) =>
      simp only [mergeAux, List.mem_append] at hw
      rcases hw with hw | hw
      · exact hacc w hw
      · exact mem_closeRun_prop hw
  | cons row rest ih =>
    intro idx st conds acc hacc w hw
    simp only [mergeAux] at hw
    split at hw
    · exact ih _ _ _ _ hacc w hw
    · match st, hw with
      | none, hw => exact ih _ _ _ _ hacc w hw
      | some (s, e), hw =>
        refine ih _ _ _ _ ?_ w hw
        intro w1 hw1
        rcases List.mem_append.mp hw1 with h1 | h1
        · exact hacc w1 h1
        · exact mem_closeRun_prop h1

theorem mem_mergeWindows_prop {rows : List HourRow} {minDur : ℤ} {w : SunWindow}
    (hw : w ∈ mergeWindows rows minDur) :
    minDur ≤ w.duration_min ∧ (w.condition = "sunny" ∨ w.condition = "partial") := by
  unfold mergeWindows at hw
  split at hw
  · simp at hw
  · exact mergeAux_mem_prop rows minDur rows 0 none [] [] (by simp) w hw

/-! ## Claim theorems -/

/-- Claim C1 (code_bug evidence): contrary to the claim that project_shadow
never raises and skips a polygon part whose validity repair yields a
non-polygonal result, the source reads shadow.is_empty on the None returned
for such a part (src/shadow_engine.py line 139), so the call raises
AttributeError.  Concretely: a collapsed (collinear-ring) building polygon,
invalid with a LineString repair, height 10 m, azimuth 180, elevation 45. -/
theorem C1_project_shadow_raises :
    projectShadow lineOps unitMath 0 10 180 45 = .error .attributeError := by
  have h1 : ¬ ((45 : ℚ) ≤ MIN_SUN_ELEVATION ∨ (10 : ℚ) ≤ 0) := by
    norm_num [MIN_SUN_ELEVATION]
  have h2 : ¬ (unitMath.tanDeg 45 ≤ 0) := by norm_num [unitMath]
  have h3 : ¬ (min MAX_SHADOW_LENGTH ((10 : ℚ) / unitMath.tanDeg 45) ≤ 0) := by
    norm_num [MAX_SHADOW_LENGTH, unitMath]
  simp only [projectShadow, h1, h2, h3, if_false, if_neg]
  simp [iterPolygons, lineOps, shadowPiecesLoop, shadowForPolygon, shadowValidityFix]

/-- Claim C9: empty inputs yield empty, non-error results: the ranking
engine on an empty cafe list returns the empty list, merge_windows on an
empty hourly sequence returns the empty list, and a candidate query against
an index built from zero buildings returns the empty candidate set. -/
theorem C9_empty_inputs :
    (∀ (G : Type) (ops : GeoOps G) (pymath : PyMath) (buildings : BuildingsArg G)
      (sunAz sunElev cloud : ℚ) (limit : Option ℤ),
      computeSunnyCafes ops pymath [] buildings sunAz sunElev cloud limit = .ok [])
    ∧ (∀ minDur : ℤ, mergeWindows [] minDur = [])
    ∧ (∀ (G : Type) (ops : GeoOps G) (searchArea : G),
        queryCandidateIndices ops (buildBuildingIndex ops []) searchArea = []) := by
  refine ⟨fun G ops pymath buildings az elev cloud limit => ?_, fun minDur => ?_,
    fun G ops searchArea => ?_⟩
  · simp [computeSunnyCafes]
  · rfl
  · simp [queryCandidateIndices, buildBuildingIndex]

/-- Claim C2: merge_windows closes a run of consecutive available hours into
a window whose condition is sunny exactly when every hour in the run was
sunny and partial otherwise, and discards windows shorter than
min_duration_min; on the hourly conditions [partial, sunny, shaded, sunny]
with min_duration_min = 90 it returns exactly one window covering the first
two hours, 120 minutes long, with condition partial. -/
theorem C2_merge_windows :
    (∀ (rows : List HourRow) (s e : ℤ) (conds : List String) (w : SunWindow),
      buildWindow rows s e conds = some w →
      w.condition = if conds.all (· == "sunny") then "sunny" else "partial")
    ∧ (∀ (rows : List HourRow) (minDur : ℤ) (w : SunWindow),
        w ∈ mergeWindows rows minDur →
        minDur ≤ w.duration_min ∧ (w.condition = "sunny" ∨ w.condition = "partial"))
    ∧ mergeWindows exampleRows 90 = [exampleWindow] :=
  ⟨fun _ _ _ _ _ h => buildWindow_condition h,
   fun _ _ _ hw => mem_mergeWindows_prop hw,
   by decide⟩

/-- Witness for C2: the first two components applied at the concrete
four-hour example. -/
theorem C2_merge_windows_witness :
    exampleWindow.condition =
      (if (["partial", "sunny"] : List String).all (· == "sunny") then "sunny"
        else "partial")
    ∧ (90 : ℤ) ≤ exampleWindow.duration_min :=
  ⟨C2_merge_windows.1 exampleRows 0 1 ["partial", "sunny"] _ (by decide),
   (C2_merge_windows.2.1 exampleRows 90 _ (by decide)).1⟩

/-- Claim C6: height resolution follows the strict priority order
height tag, then byg054AntalEtager x 3, then byg055AfvigendeEtager x 3, then
building:levels x 3, then the category table with default 9 for unknown
categories; exactly one source wins and is recorded.  In particular a record
carrying both an explicit (positive, parseable) height and floor counts
resolves to the explicit value with source height_tag. -/
theorem C6_height_resolution :
    resolveHeightM ⟨SVal.num (15/2), SVal.num 4, SVal.num 2, SVal.num 3, some "house"⟩ =
      (15/2, "height_tag")
    ∧ (∀ (p : BuildingProps) (h : ℚ), posFloat p.height = some h →
        resolveHeightM p = (h, "height_tag"))
    ∧ (∀ (p : BuildingProps) (n : ℚ), posFloat p.height = Option.none →
        posFloat p.byg054AntalEtager = some n →
        resolveHeightM p = (n * 3, "bbr_floors"))
    ∧ (∀ (p : BuildingProps) (n : ℚ), posFloat p.height = Option.none →
        posFloat p.byg054AntalEtager = Option.none →
        posFloat p.byg055AfvigendeEtager = some n →
        resolveHeightM p = (n * 3, "bbr_alt_floors"))
    ∧ (∀ (p : BuildingProps) (n : ℚ), posFloat p.height = Option.none →
        posFloat p.byg054AntalEtager = Option.none →
        posFloat p.byg055AfvigendeEtager = Option.none →
        posFloat p.building_levels = some n →
        resolveHeightM p = (n * 3, "building_levels"))
    ∧ (∀ p : BuildingProps, posFloat p.height = Option.none →
        posFloat p.byg054AntalEtager = Option.none →
        posFloat p.byg055AfvigendeEtager = Option.none →
        posFloat p.building_levels = Option.none →
        resolveHeightM p = ((heightDefaults.lookup (buildingType p)).getD 9,
          "imputed_" ++ buildingType p)) := by
  refine ⟨?_, fun p h h1 => ?_, fun p n h1 h2 => ?_, fun p n h1 h2 h3 => ?_,
    fun p n h1 h2 h3 h4 => ?_, fun p h1 h2 h3 h4 => ?_⟩
  · norm_num [resolveHeightM, posFloat, asFloat]
  · simp [resolveHeightM, h1]
  · simp [resolveHeightM, h1, h2]
  · simp [resolveHeightM, h1, h2, h3]
  · simp [resolveHeightM, h1, h2, h3, h4]
  · simp [resolveHeightM, h1, h2, h3, h4]

/-- Witness for C6: the priority components applied at concrete records. -/
theorem C6_height_resolution_witness :
    resolveHeightM ⟨SVal.num 5, SVal.num 2, SVal.none, SVal.none, none⟩ =
      (5, "height_tag")
    ∧ resolveHeightM ⟨SVal.none, SVal.num 2, SVal.none, SVal.none, none⟩ =
      (2 * 3, "bbr_floors")
    ∧ resolveHeightM ⟨SVal.str "oops" Option.none, SVal.none, SVal.none, SVal.none,
        some "hotel"⟩ = (20, "imputed_hotel") := by
  refine ⟨C6_height_resolution.2.1 _ 5 (by decide),
    C6_height_resolution.2.2.1 _ 2 (by decide) (by decide), ?_⟩
  have h := C6_height_resolution.2.2.2.2.2
    ⟨SVal.str "oops" Option.none, SVal.none, SVal.none, SVal.none, some "hotel"⟩
    (by decide) (by decide) (by decide) (by decide)
  rw [h]
  decide

/-- Helper for C3: the boolean preference match unpacked into the period
ranges it tests against the UTC start hour. -/
theorem windowMatchesPreference_iff (start : ℤ) (prefs : List String) :
    windowMatchesPreference start prefs = true ↔
      ∃ p ∈ prefs,
        (pyLower (pyStrip p) = "morning" ∧ 6 ≤ utcHour start ∧ utcHour start < 11) ∨
        (pyLower (pyStrip p) = "lunch" ∧ 11 ≤ utcHour start ∧ utcHour start < 14) ∨
        (pyLower (pyStrip p) = "afternoon" ∧ 14 ≤ utcHour start ∧ utcHour start < 18) ∨
        (pyLower (pyStrip p) = "evening" ∧ 18 ≤ utcHour start ∧ utcHour start < 22) := by
  simp only [windowMatchesPreference, List.any_eq_true, Bool.or_eq_true,
    Bool.and_eq_true, decide_eq_true_eq, beq_iff_eq, and_assoc, or_assoc]

/-- Claim C3 counterexample: a window starting 17:00 UTC on a summer day in
Copenhagen (UTC offset +120 minutes) has local start hour 19, inside the
preferred evening period 18-22, yet rank_recommendations awards
preferred_bonus 0 because line 209 of src/recommendations.py reads the hour
of the UTC-normalized start, not the local one. -/
theorem C3_preferred_bonus_counterexample :
    preferredBonus (17 * 60) ["evening"] = 0
    ∧ localStartHourSpec 120 (17 * 60) = 19
    ∧ 18 ≤ localStartHourSpec 120 (17 * 60)
    ∧ localStartHourSpec 120 (17 * 60) < 22 := by
  refine ⟨?_, by decide, by decide, by decide⟩
  have hb : windowMatchesPreference (17 * 60) ["evening"] = false := by decide
  simp only [preferredBonus, hb, Bool.false_eq_true, if_false]

/-- Claim C3, amended: in rank_recommendations, preferred_bonus equals 10
exactly when the hour of the window's UTC-normalized start (not its local
rendering) falls in one of the caller's preferred named periods (morning
06-11, lunch 11-14, afternoon 14-18, evening 18-22, half-open), and 0
otherwise. -/
theorem C3_preferred_bonus_amended :
    ∀ (start : ℤ) (prefs : List String),
      (preferredBonus start prefs = 10 ∨ preferredBonus start prefs = 0)
      ∧ (preferredBonus start prefs = 10 ↔
          ∃ p ∈ prefs,
            (pyLower (pyStrip p) = "morning" ∧ 6 ≤ utcHour start ∧ utcHour start < 11) ∨
            (pyLower (pyStrip p) = "lunch" ∧ 11 ≤ utcHour start ∧ utcHour start < 14) ∨
            (pyLower (pyStrip p) = "afternoon" ∧ 14 ≤ utcHour start ∧ utcHour start < 18) ∨
            (pyLower (pyStrip p) = "evening" ∧ 18 ≤ utcHour start ∧ utcHour start < 22)) := by
  intro start prefs
  constructor
  · unfold preferredBonus
    split
    · exact Or.inl rfl
    · exact Or.inr rfl
  · by_cases hb : windowMatchesPreference start prefs
    · unfold preferredBonus
      rw [if_pos hb]
      exact iff_of_true rfl ((windowMatchesPreference_iff start prefs).mp hb)
    · have hb' : windowMatchesPreference start prefs = false := by
        simpa using hb
      unfold preferredBonus
      rw [hb']
      simp only [Bool.false_eq_true, if_false]
      exact iff_of_false (by norm_num)
        (fun hr => by
          have h2 := (windowMatchesPreference_iff start prefs).mpr hr
          rw [hb'] at h2
          exact Bool.false_ne_true h2)

/-- Claim C5: whenever the computed sun elevation is at most the 2-degree
minimum threshold, compute_sunny_cafes returns (for every batch, building
argument and cloud cover) records that all have sunny_score 0,
sunny_fraction 0 and in_shadow true, and no shadow geometry is computed: the
output does not depend on the geometry backend, the trigonometry oracle or
the building data at all. -/
theorem C5_below_threshold :
    ∀ (G G' : Type) (ops : GeoOps G) (ops' : GeoOps G') (pymath pymath' : PyMath)
      (cafes : List CafeFeature) (b : BuildingsArg G) (b' : BuildingsArg G')
      (sunAz sunElev cloud : ℚ) (limit : Option ℤ),
      sunElev ≤ MIN_SUN_ELEVATION →
      computeSunnyCafes ops pymath cafes b sunAz sunElev cloud limit =
        .ok (pyLimit limit (cafes.map (lowElevationRecord sunAz sunElev cloud)))
      ∧ (∀ r ∈ pyLimit limit (cafes.map (lowElevationRecord sunAz sunElev cloud)),
          r.sunny_score = 0 ∧ r.sunny_fraction = 0 ∧ r.in_shadow = true)
      ∧ computeSunnyCafes ops pymath cafes b sunAz sunElev cloud limit =
          computeSunnyCafes ops' pymath' cafes b' sunAz sunElev cloud limit := by
  intro G G' ops ops' pymath pymath' cafes b b' sunAz sunElev cloud limit h
  refine ⟨computeSunnyCafes_low _ _ _ _ _ _ _ _ h, ?_, ?_⟩
  · intro r hr
    obtain ⟨f, hf, rfl⟩ := List.mem_map.mp (mem_pyLimit hr)
    exact ⟨rfl, rfl, rfl⟩
  · rw [computeSunnyCafes_low _ _ _ _ _ _ _ _ h,
      computeSunnyCafes_low _ _ _ _ _ _ _ _ h]

/-- Witness for C5 at a concrete sub-threshold input, with two entirely
different geometry backends on the two sides. -/
theorem C5_below_threshold_witness :
    computeSunnyCafes unitOps unitMath [cafeA] (.bundle emptyBundle) 0 0 0 none =
      .ok (pyLimit none ([cafeA].map (lowElevationRecord 0 0 0)))
    ∧ (∀ r ∈ pyLimit none ([cafeA].map (lowElevationRecord 0 0 0)),
        r.sunny_score = 0 ∧ r.sunny_fraction = 0 ∧ r.in_shadow = true)
    ∧ computeSunnyCafes unitOps unitMath [cafeA] (.bundle emptyBundle) 0 0 0 none =
        computeSunnyCafes lineOps unitMath [cafeA]
          (.bundle ⟨[], [], none, 20⟩) 0 0 0 none :=
  C5_below_threshold Unit ℕ unitOps lineOps unitMath unitMath [cafeA]
    (.bundle emptyBundle) (.bundle ⟨[], [], none, 20⟩) 0 0 0 none
    (by norm_num [MIN_SUN_ELEVATION])

/-- Helper: the score bounds and the two cloud-extreme consequences follow
for any record whose fraction and score have the engine's shape. -/
theorem scoreShape {cloud : ℚ} {r : CafeResult} (f : ℚ) (hf0 : 0 ≤ f) (hf1 : f ≤ 1)
    (hfrac : r.sunny_fraction = pyRound 3 f)
    (hscore : r.sunny_score = pyRound 1 (100 * f * cloudFactor cloud)) :
    0 ≤ r.sunny_score ∧ r.sunny_score ≤ 100
    ∧ (100 ≤ cloud → r.sunny_score = 0)
    ∧ (cloud ≤ 0 → r.sunny_score = 100 * r.sunny_fraction) := by
  have hw0 := cloudFactor_nonneg cloud
  have hw1 := cloudFactor_le_one cloud
  refine ⟨?_, ?_, ?_, ?_⟩
  · rw [hscore]
    exact pyRound_nonneg _ (by positivity)
  · rw [hscore]
    apply pyRound_one_le_100
    nlinarith
  · intro hc
    rw [hscore, cloudFactor_at_hundred hc, mul_zero]
    exact pyRound_zero 1
  · intro hc
    rw [hscore, cloudFactor_at_zero hc, mul_one,
      pyRound_one_eq_100_mul_pyRound_three, hfrac]

/-- Claim C7: for every cafe and every cloud_cover_pct input (clamped to
[0,100] without error), sunny_score = round(100 x sunny_fraction x
(1 - clamped/100), 1); consequently at cloud cover 100 the score is 0 for
every cafe, at cloud cover 0 it equals 100 x the reported sunny_fraction,
and the score always lies in [0,100]. -/
theorem C7_weather_score :
    ∀ (G : Type) (ops : GeoOps G) (pymath : PyMath) (cafes : List CafeFeature)
      (b : BuildingsArg G) (sunAz sunElev cloud : ℚ) (limit : Option ℤ)
      (out : List CafeResult),
      computeSunnyCafes ops pymath cafes b sunAz sunElev cloud limit = .ok out →
      (cloudFactor cloud = 1 - max 0 (min 100 cloud) / 100
        ∧ 0 ≤ cloudFactor cloud ∧ cloudFactor cloud ≤ 1)
      ∧ ∀ r ∈ out, ∃ f : ℚ, 0 ≤ f ∧ f ≤ 1
          ∧ r.sunny_fraction = pyRound 3 f
          ∧ r.sunny_score = pyRound 1 (100 * f * cloudFactor cloud)
          ∧ 0 ≤ r.sunny_score ∧ r.sunny_score ≤ 100
          ∧ (100 ≤ cloud → r.sunny_score = 0)
          ∧ (cloud ≤ 0 → r.sunny_score = 100 * r.sunny_fraction) := by
  intro G ops pymath cafes b sunAz sunElev cloud limit out hout
  refine ⟨⟨rfl, cloudFactor_nonneg _, cloudFactor_le_one _⟩, ?_⟩
  intro r hr
  unfold computeSunnyCafes at hout
  by_cases hc : cafes.isEmpty
  · rw [if_pos hc] at hout
    cases hout
    simp at hr
  · rw [if_neg hc] at hout
    by_cases hlow : sunElev ≤ MIN_SUN_ELEVATION
    · rw [if_pos hlow] at hout
      cases hout
      obtain ⟨f, hf, rfl⟩ := List.mem_map.mp (mem_pyLimit hr)
      have hfrac : (lowElevationRecord sunAz sunElev cloud f).sunny_fraction =
          pyRound 3 0 := by
        rw [pyRound_zero]
        rfl
      have hscore : (lowElevationRecord sunAz sunElev cloud f).sunny_score =
          pyRound 1 (100 * 0 * cloudFactor cloud) := by
        rw [mul_zero, zero_mul, pyRound_zero]
        rfl
      exact ⟨0, le_refl 0, by norm_num, hfrac, hscore,
        scoreShape 0 (le_refl 0) (by norm_num) hfrac hscore⟩
    · rw [if_neg hlow] at hout
      cases hcl : cafeLoop (mainCtx ops pymath b sunAz sunElev) cloud
          (cloudFactor cloud) cafes [] [] with
      | error e => rw [hcl] at hout; cases hout
      | ok results =>
        rw [hcl] at hout
        cases hout
        have hrmem : r ∈ results := by
          have := mem_pyLimit hr
          simpa [sortResults] using this
        rcases cafeLoop_ok_mem _ _ _ cafes [] [] results hcl r hrmem with habs | hshape
        · simp at habs
        · obtain ⟨f, lon, lat, n, hn, rfl⟩ := hshape
          have hfrac : (mainRecord (mainCtx ops pymath b sunAz sunElev) cloud
              (cloudFactor cloud) f lon lat n).sunny_fraction =
              pyRound 3 ((n : ℚ) / 3) := by
            simp only [mainRecord, sampleFraction_eq]
          have hscore : (mainRecord (mainCtx ops pymath b sunAz sunElev) cloud
              (cloudFactor cloud) f lon lat n).sunny_score =
              pyRound 1 (100 * ((n : ℚ) / 3) * cloudFactor cloud) := by
            simp only [mainRecord, sampleFraction_eq]
          have hf0 : (0 : ℚ) ≤ (n : ℚ) / 3 := by positivity
          have hf1 : (n : ℚ) / 3 ≤ 1 := by
            rw [div_le_one (by norm_num)]
            exact_mod_cast hn
          exact ⟨(n : ℚ) / 3, hf0, hf1, hfrac, hscore,
            scoreShape _ hf0 hf1 hfrac hscore⟩

/-- Witness for C7: the per-record component at a concrete successful call,
fully instantiated at the single record that call produces. -/
theorem C7_weather_score_witness :
    ∃ f : ℚ, 0 ≤ f ∧ f ≤ 1
      ∧ (lowElevationRecord 0 0 50 cafeA).sunny_fraction = pyRound 3 f
      ∧ (lowElevationRecord 0 0 50 cafeA).sunny_score =
          pyRound 1 (100 * f * cloudFactor 50)
      ∧ 0 ≤ (lowElevationRecord 0 0 50 cafeA).sunny_score
      ∧ (lowElevationRecord 0 0 50 cafeA).sunny_score ≤ 100
      ∧ ((100 : ℚ) ≤ 50 → (lowElevationRecord 0 0 50 cafeA).sunny_score = 0)
      ∧ ((50 : ℚ) ≤ 0 → (lowElevationRecord 0 0 50 cafeA).sunny_score =
          100 * (lowElevationRecord 0 0 50 cafeA).sunny_fraction) :=
  (C7_weather_score Unit unitOps unitMath [cafeA] (.bundle emptyBundle) 0 0 50 none _
    (computeSunnyCafes_low unitOps unitMath [cafeA] (.bundle emptyBundle) 0 0 50 none
      (by norm_num [MIN_SUN_ELEVATION]))).2
    (lowElevationRecord 0 0 50 cafeA) (by simp [pyLimit])

/-- Claim C4 counterexample: the claim says every limit value other than
none/unset truncates to the first limit elements, so limit 0 should return
the empty list; but `if limit:` treats 0 as falsy and compute_sunny_cafes
returns the full list. -/
theorem C4_limit_zero_counterexample :
    computeSunnyCafes unitOps unitMath [cafeA] (.bundle emptyBundle) 0 0 0 (some 0) =
      .ok [lowElevationRecord 0 0 0 cafeA]
    ∧ computeSunnyCafes unitOps unitMath [cafeA] (.bundle emptyBundle) 0 0 0 (some 0) ≠
      .ok [] := by
  have h := computeSunnyCafes_low unitOps unitMath [cafeA] (.bundle emptyBundle)
    0 0 0 (some 0) (by norm_num [MIN_SUN_ELEVATION])
  refine ⟨by rw [h]; rfl, ?_⟩
  rw [h]
  simp [pyLimit]

/-- Claim C4, amended: above the elevation threshold the engine sorts its
results descending by the tuple (sunny_score, sunny_fraction, name) with
name as final deterministic tie-break (of two cafes tied on score and
fraction the lexicographically smaller name sorts after the larger, shown by
a literal two-record example); a positive limit truncates the sorted output
to its first limit elements, while limit none (unset) and the falsy limit 0
return the full sorted list.  (At or below the threshold the engine returns
records in input order without sorting.) -/
theorem C4_sort_limit_amended :
    (∀ (G : Type) (ops : GeoOps G) (pymath : PyMath) (cafes : List CafeFeature)
      (b : BuildingsArg G) (sunAz sunElev cloud : ℚ),
      MIN_SUN_ELEVATION < sunElev →
      ∀ full, computeSunnyCafes ops pymath cafes b sunAz sunElev cloud none = .ok full →
        List.Pairwise (fun a b => resultDescLE a b = true) full
        ∧ (∀ l : ℤ, 0 < l →
            computeSunnyCafes ops pymath cafes b sunAz sunElev cloud (some l) =
              .ok (full.take l.toNat))
        ∧ computeSunnyCafes ops pymath cafes b sunAz sunElev cloud (some 0) = .ok full)
    ∧ sortResults [tiedA, tiedB] = [tiedB, tiedA] := by
  refine ⟨?_, tied_names_sort⟩
  intro G ops pymath cafes b sunAz sunElev cloud hlt full hfull
  by_cases hc : cafes.isEmpty
  · have hcc : cafes = [] := List.isEmpty_iff.mp hc
    subst hcc
    simp only [computeSunnyCafes, List.isEmpty_nil, if_true] at hfull ⊢
    cases hfull
    exact ⟨List.Pairwise.nil, fun l _ => by simp, rfl⟩
  · unfold computeSunnyCafes at hfull
    rw [if_neg hc, if_neg (not_le.mpr hlt)] at hfull
    cases hcl : cafeLoop (mainCtx ops pymath b sunAz sunElev) cloud
        (cloudFactor cloud) cafes [] [] with
    | error e => rw [hcl] at hfull; cases hfull
    | ok results =>
      rw [hcl] at hfull
      have hfull2 : full = sortResults results := by
        cases hfull
        rfl
      subst hfull2
      refine ⟨?_, ?_, ?_⟩
      · exact List.sorted_mergeSort resultDescLE_trans resultDescLE_total results
      · intro l hl
        unfold computeSunnyCafes
        rw [if_neg hc, if_neg (not_le.mpr hlt), hcl]
        show Except.ok (pyLimit (some l) (sortResults results)) = _
        rw [pyLimit_pos hl]
      · unfold computeSunnyCafes
        rw [if_neg hc, if_neg (not_le.mpr hlt), hcl]
        rfl

/-- Witness for C4: the amended theorem applied to the concrete successful
above-threshold run over [cafeA, cafeNoCoords]. -/
theorem C4_sort_limit_witness :
    List.Pairwise (fun a b => resultDescLE a b = true) [resA]
    ∧ (∀ l : ℤ, 0 < l →
        computeSunnyCafes unitOps unitMath [cafeA, cafeNoCoords] (.bundle emptyBundle)
          0 45 0 (some l) = .ok ([resA].take l.toNat))
    ∧ computeSunnyCafes unitOps unitMath [cafeA, cafeNoCoords] (.bundle emptyBundle)
        0 45 0 (some 0) = .ok [resA] :=
  C4_sort_limit_amended.1 Unit unitOps unitMath [cafeA, cafeNoCoords]
    (.bundle emptyBundle) 0 45 0 (by norm_num [MIN_SUN_ELEVATION]) [resA] concreteMainRun

/-- Claim C10: a cafe feature without usable coordinates is silently dropped
from the output when the sun elevation is above the 2-degree threshold (the
output equals the output on the coordinate-filtered batch), but is included
(with the given lon/lat fields, score 0, in_shadow true) when elevation is
at or below the threshold; consequently the result length for the same
batch differs between the two branches, as the concrete two-cafe batch
[cafeA, cafeNoCoords] shows (1 record above threshold, 2 below). -/
theorem C10_missing_coordinates :
    (∀ (G : Type) (ops : GeoOps G) (pymath : PyMath) (cafes : List CafeFeature)
      (b : BuildingsArg G) (sunAz sunElev cloud : ℚ) (limit : Option ℤ),
      MIN_SUN_ELEVATION < sunElev →
      computeSunnyCafes ops pymath cafes b sunAz sunElev cloud limit =
        computeSunnyCafes ops pymath (cafes.filter cafeHasCoords) b
          sunAz sunElev cloud limit)
    ∧ (∀ (G : Type) (ops : GeoOps G) (pymath : PyMath) (cafes : List CafeFeature)
        (b : BuildingsArg G) (sunAz sunElev cloud : ℚ),
        sunElev ≤ MIN_SUN_ELEVATION →
        computeSunnyCafes ops pymath cafes b sunAz sunElev cloud none =
          .ok (cafes.map (lowElevationRecord sunAz sunElev cloud))
        ∧ ∀ f ∈ cafes,
            (lowElevationRecord sunAz sunElev cloud f).lon = f.lon
            ∧ (lowElevationRecord sunAz sunElev cloud f).lat = f.lat
            ∧ (lowElevationRecord sunAz sunElev cloud f).sunny_score = 0
            ∧ (lowElevationRecord sunAz sunElev cloud f).in_shadow = true)
    ∧ (computeSunnyCafes unitOps unitMath [cafeA, cafeNoCoords] (.bundle emptyBundle)
        0 45 0 none).toOption.map List.length = some 1
    ∧ (computeSunnyCafes unitOps unitMath [cafeA, cafeNoCoords] (.bundle emptyBundle)
        0 0 0 none).toOption.map List.length = some 2 := by
  refine ⟨?_, ?_, ?_, ?_⟩
  · intro G ops pymath cafes b sunAz sunElev cloud limit hlt
    by_cases hc : cafes.isEmpty
    · have hcc : cafes = [] := List.isEmpty_iff.mp hc
      subst hcc
      rfl
    · unfold computeSunnyCafes
      rw [if_neg hc, if_neg (not_le.mpr hlt)]
      by_cases hc2 : (cafes.filter cafeHasCoords).isEmpty
      · rw [if_pos hc2, cafeLoop_filter, List.isEmpty_iff.mp hc2]
        simp [cafeLoop, sortResults, pyLimit_nil]
      · rw [if_neg hc2, if_neg (not_le.mpr hlt), cafeLoop_filter]
  · intro G ops pymath cafes b sunAz sunElev cloud hle
    refine ⟨computeSunnyCafes_low ops pymath cafes b sunAz sunElev cloud none hle,
      fun f _ => ⟨rfl, rfl, rfl, rfl⟩⟩
  · rw [concreteMainRun]
    rfl
  · rw [computeSunnyCafes_low unitOps unitMath [cafeA, cafeNoCoords]
      (.bundle emptyBundle) 0 0 0 none (by norm_num [MIN_SUN_ELEVATION])]
    rfl

/-- Witness for C10: the filter equation and the low-branch equation at
concrete inputs. -/
theorem C10_missing_coordinates_witness :
    computeSunnyCafes unitOps unitMath [cafeA, cafeNoCoords] (.bundle emptyBundle)
      0 45 0 none =
      computeSunnyCafes unitOps unitMath
        ([cafeA, cafeNoCoords].filter cafeHasCoords) (.bundle emptyBundle) 0 45 0 none
    ∧ computeSunnyCafes unitOps unitMath [cafeA, cafeNoCoords] (.bundle emptyBundle)
        0 0 0 none =
      .ok ([cafeA, cafeNoCoords].map (lowElevationRecord 0 0 0)) :=
  ⟨C10_missing_coordinates.1 Unit unitOps unitMath [cafeA, cafeNoCoords]
      (.bundle emptyBundle) 0 45 0 none (by norm_num [MIN_SUN_ELEVATION]),
   (C10_missing_coordinates.2.1 Unit unitOps unitMath [cafeA, cafeNoCoords]
      (.bundle emptyBundle) 0 0 0 (by norm_num [MIN_SUN_ELEVATION])).1⟩

/-- Claim C8: for fixed positive height and fixed azimuth, the shadow length
equals min(500 m, height / tan(elevation)), is monotonically non-increasing
in the elevation over (2, 90) degrees, and is strictly decreasing wherever
height / tan(elevation) is below the 500 m cap. -/
theorem C8_shadow_length_monotone :
    ∀ h e1 e2 : ℝ, 0 < h → 2 < e1 → e1 < e2 → e2 < 90 →
      shadowLength h e1 = min 500 (h / Real.tan (e1 * (Real.pi / 180)))
      ∧ shadowLength h e2 ≤ shadowLength h e1
      ∧ (h / Real.tan (e1 * (Real.pi / 180)) < 500 →
          shadowLength h e2 < shadowLength h e1) := by
  intro h e1 e2 hh he1 he12 he2
  have hc : (0 : ℝ) < Real.pi / 180 := by positivity
  have he1pos : (0 : ℝ) < e1 := by linarith
  have ht1pos : 0 < e1 * (Real.pi / 180) := by positivity
  have ht12 : e1 * (Real.pi / 180) < e2 * (Real.pi / 180) :=
    mul_lt_mul_of_pos_right he12 hc
  have ht2lt : e2 * (Real.pi / 180) < Real.pi / 2 := by
    calc e2 * (Real.pi / 180) < 90 * (Real.pi / 180) := mul_lt_mul_of_pos_right he2 hc
      _ = Real.pi / 2 := by ring
  have ht1lt : e1 * (Real.pi / 180) < Real.pi / 2 := lt_trans ht12 ht2lt
  have htan1pos : 0 < Real.tan (e1 * (Real.pi / 180)) :=
    Real.tan_pos_of_pos_of_lt_pi_div_two ht1pos ht1lt
  have hpi2 : (0 : ℝ) < Real.pi / 2 := by positivity
  have htanlt : Real.tan (e1 * (Real.pi / 180)) < Real.tan (e2 * (Real.pi / 180)) := by
    apply Real.strictMonoOn_tan ⟨by linarith, ht1lt⟩ ⟨by linarith, ht2lt⟩ ht12
  have hdivlt : h / Real.tan (e2 * (Real.pi / 180)) < h / Real.tan (e1 * (Real.pi / 180)) :=
    div_lt_div_of_pos_left hh htan1pos htanlt
  refine ⟨rfl, ?_, ?_⟩
  · exact min_le_min (le_refl 500) (le_of_lt hdivlt)
  · intro hcap
    have h1 : shadowLength h e1 = h / Real.tan (e1 * (Real.pi / 180)) := by
      unfold shadowLength
      exact min_eq_right (le_of_lt hcap)
    rw [h1]
    exact lt_of_le_of_lt (min_le_right _ _) hdivlt

/-- Witness for C8 at height 10 m, elevations 45 and 60 degrees; at 45
degrees the uncapped length is 10 m, below the cap, so the decrease is
strict. -/
theorem C8_shadow_length_witness :
    (shadowLength 10 45 = min 500 (10 / Real.tan (45 * (Real.pi / 180)))
      ∧ shadowLength 10 60 ≤ shadowLength 10 45
      ∧ (10 / Real.tan (45 * (Real.pi / 180)) < 500 →
          shadowLength 10 60 < shadowLength 10 45))
    ∧ shadowLength 10 60 < shadowLength 10 45 := by
  have hbase := C8_shadow_length_monotone 10 45 60 (by norm_num) (by norm_num)
    (by norm_num) (by norm_num)
  have hcap : (10 : ℝ) / Real.tan (45 * (Real.pi / 180)) < 500 := by
    rw [show (45 : ℝ) * (Real.pi / 180) = Real.pi / 4 by ring, Real.tan_pi_div_four]
    norm_num
  exact ⟨hbase, hbase.2.2 hcap⟩
